import Mathlib

/-!
# Verification of the node_api gateway (request normalization and forwarding layer)

Shallow embedding of the JavaScript gateway that forwards CRUD/aggregate
requests to the downstream Go data engine.  The embedding covers:

* `src/src/controllers/api/goDataEngine.controller.js` — the controller wired
  by `src/src/routes/api/index.js` (per-endpoint validation and dispatch);
* `src/src/services/goDataEngine.service.js` — the service layer that builds
  the payload forwarded to the downstream engine (the complete service
  definition of that file; each service function either throws a validation
  error or hands a payload to `requestToGo`);
* the `validateApiKey` middleware and the `validateFields` helper of the
  unnamed companion files;
* the `callGoEngine` response normalization of the final consumer module.

JavaScript values are modelled by `JVal` (JSON values plus `undefined` and
`NaN`); request bodies are association lists; a service call is modelled as
`Except String GoRequest`, where the `GoRequest` is exactly the payload the
source passes to `requestToGo` and an `error` is the message of the thrown
`Error`.  A controller result records HTTP status, the `success` flag, the
response `message`/`error` fields, and the downstream request issued (if any).
-/

/-- A JavaScript runtime value as used by the gateway: the JSON values plus
`undefined` (absent properties) and `NaN` (failed numeric conversion). -/
inductive JVal where
  | jNull
  | jUndef
  | jNaN
  | jBool (b : Bool)
  | jInt (n : Int)
  | jStr (s : String)
  | jArr (xs : List JVal)
  | jObj (fs : List (String × JVal))
deriving Repr

open JVal

/-- JavaScript truthiness: `undefined`, `null`, `NaN`, `false`, `0` and `""`
are falsy; every other value (including `[]` and `{}`) is truthy. -/
def truthy : JVal → Bool
  | jNull => false
  | jUndef => false
  | jNaN => false
  | jBool b => b
  | jInt n => n != 0
  | jStr s => s ≠ ""
  | jArr _ => true
  | jObj _ => true

/-- `x ?? y` — JavaScript nullish coalescing: `y` when `x` is `null` or
`undefined`, otherwise `x`. -/
def nullish (x y : JVal) : JVal :=
  match x with
  | jNull => y
  | jUndef => y
  | v => v

/-- `x || y` — JavaScript logical or on values: `x` when truthy, else `y`. -/
def jor (x y : JVal) : JVal :=
  if truthy x then x else y

/-- A JavaScript default parameter: the default applies exactly when the
argument is `undefined`. -/
def pdef (x d : JVal) : JVal :=
  match x with
  | jUndef => d
  | v => v

/-- Property read on an object's field list: `undefined` when absent. -/
def jget (fs : List (String × JVal)) (k : String) : JVal :=
  (List.lookup k fs).getD jUndef

/-- Property read on a value (`v.k`) when it cannot throw: fields of
objects; primitives and arrays have no named data fields, so the gateway's
reads yield `undefined`.  `jmemE` is the full semantics including the
TypeError on `null`/`undefined`. -/
def rowGet (v : JVal) (k : String) : JVal :=
  match v with
  | jObj fs => jget fs k
  | _ => jUndef

/-- Property read (`v.k`) with the JavaScript TypeError on member access of
`null`/`undefined`; every other value yields its property (or `undefined`). -/
def jmemE (v : JVal) (k : String) : Except String JVal :=
  match v with
  | jNull => .error "TypeError: Cannot read properties of null"
  | jUndef => .error "TypeError: Cannot read properties of undefined"
  | w => .ok (rowGet w k)

/-- `Array.isArray`. -/
def isArray : JVal → Bool
  | jArr _ => true
  | _ => false

/-- Whether a value is a JSON object (a row with named fields). -/
def isObj : JVal → Bool
  | jObj _ => true
  | _ => false

/-- `Object.keys(v).length` for the values a payload can hold: number of own
enumerable keys — fields of an object, indices of an array or a string,
nothing for primitives. -/
def keysLength : JVal → Nat
  | jObj fs => fs.length
  | jArr xs => xs.length
  | jStr s => s.length
  | _ => 0

/-- Fields produced by spreading a value into an object literal (`{...v}`):
an object contributes its fields, an array or string its indexed elements,
other primitives nothing. -/
def spreadFields : JVal → List (String × JVal)
  | jObj fs => fs
  | jArr xs => (xs.enum.map fun p => (toString p.1, p.2))
  | jStr s => (s.toList.enum.map fun p => (toString p.1, jStr (String.singleton p.2)))
  | _ => []

/-- Writing key `k` last in an object literal built by a spread
(`{...r, k: v}`): replaces the value in place when `k` is already a key,
otherwise appends it. -/
def objSet (fs : List (String × JVal)) (k : String) (v : JVal) : List (String × JVal) :=
  if (fs.map Prod.fst).contains k then
    fs.map (fun p => if p.1 = k then (k, v) else p)
  else
    fs ++ [(k, v)]

mutual

/-- JavaScript `String(v)` conversion, as performed by `new Error(v)`:
objects render as `"[object Object]"`, arrays join their elements with
commas (with `null`/`undefined` elements rendering empty). -/
def jsToString : JVal → String
  | jNull => "null"
  | jUndef => "undefined"
  | jNaN => "NaN"
  | jBool b => if b then "true" else "false"
  | jInt n => toString n
  | jStr s => s
  | jArr xs => String.intercalate "," (jsToStringList xs)
  | jObj _ => "[object Object]"

/-- Stringification of array elements for `Array.prototype.join`. -/
def jsToStringList : List JVal → List String
  | [] => []
  | v :: rest =>
    (match v with
     | jNull => ""
     | jUndef => ""
     | w => jsToString w) :: jsToStringList rest

end

/-- JavaScript `Number(v)` conversion, restricted to the values of the model
(decimal integer strings; non-integer numeric literals are outside the
model's value type). -/
def jsToNumber : JVal → JVal
  | jInt n => jInt n
  | jNaN => jNaN
  | jNull => jInt 0
  | jUndef => jNaN
  | jBool b => jInt (if b then 1 else 0)
  | jStr s =>
    let t := s.trim
    if t = "" then jInt 0
    else match t.toInt? with
      | some n => jInt n
      | none => jNaN
  | jArr [] => jInt 0
  | jArr [x] => jsToNumber x
  | jArr (_ :: _ :: _) => jNaN
  | jObj _ => jNaN

/-- A request body (`req.body`): a JSON object's field list. -/
abbrev Body := List (String × JVal)

/-- The HTTP request a service function hands to `requestToGo`: the
downstream endpoint together with the JSON payload. -/
structure GoRequest where
  endpoint : String
  payload : JVal
deriving Repr

/-- Read a field of a forwarded payload. -/
def GoRequest.field (g : GoRequest) (k : String) : JVal :=
  rowGet g.payload k

/-- Outcome of a controller handler: HTTP status, the `success` flag and
`message` of the JSON response, the `error` field (present on the 500 path),
and the downstream request issued — `none` exactly when `requestToGo` was
never invoked for the request. -/
structure CtrlResult where
  status : Nat
  success : Bool
  message : String
  error : Option String
  forwarded : Option GoRequest
deriving Repr

/-! ## Service layer (`src/src/services/goDataEngine.service.js`)

Each function mirrors a service function of the source: it performs the
source's validations (a thrown `Error` becomes `Except.error` with the same
message) and otherwise returns the exact `GoRequest` passed to
`requestToGo`. -/

/-- `insert(project_id, id_instancia, table, data)` — service lines 767-792. -/
def svcInsert (project_id id_instancia table_ data : JVal) : Except String GoRequest :=
  let pj := nullish project_id jNull
  let ii := nullish id_instancia jNull
  let tb := nullish table_ (jStr "")
  let dt := nullish data (jObj [])
  if !truthy pj then .error "project_id é obrigatório"
  else if !truthy ii then .error "id_instancia é obrigatório"
  else if !truthy tb then .error "table é obrigatória"
  else if keysLength dt = 0 then .error "data não pode ser vazio"
  else .ok ⟨"/data/insert", jObj
    [("project_id", pj), ("id_instancia", ii), ("table", tb), ("data", dt)]⟩

/-- The row transformation of `batchInsert`:
`{ ...row, id_instancia: row.id_instancia ?? id_instancia }` (service
line 841-844).  Reading `row.id_instancia` throws a TypeError when the row
is `null` or `undefined` (`jmemE`), aborting the payload construction;
otherwise the spread merge is built. -/
def mergedRowE (id_instancia row : JVal) : Except String JVal :=
  (jmemE row "id_instancia").map fun x =>
    jObj (objSet (spreadFields row) "id_instancia" (nullish x id_instancia))

/-- The value `mergedRowE` produces when the `row.id_instancia` read does
not throw (every row other than `null`/`undefined`, in particular every
object row): the spread merge with `id_instancia` nullish-coalesced. -/
def mergedRow (id_instancia : JVal) (row : JVal) : JVal :=
  jObj (objSet (spreadFields row) "id_instancia"
    (nullish (rowGet row "id_instancia") id_instancia))

/-- `batchInsert(project_id, id_instancia, table, data)` — service lines
834-862.  The payload's `data` is `Array.isArray(data) ? data.map(...) : []`;
the map is built first (a TypeError thrown by `mergedRowE` on a
`null`/`undefined` row propagates, and nothing is forwarded), then the
source's validations run. -/
def svcBatchInsert (project_id id_instancia table_ data : JVal) :
    Except String GoRequest :=
  match (match data with
    | jArr rows => Except.map jArr (rows.mapM (mergedRowE id_instancia))
    | _ => .ok (jArr [])) with
  | .error e => .error e
  | .ok dt =>
    let pj := nullish project_id jNull
    let ii := nullish id_instancia jNull
    let tb := nullish table_ (jStr "")
    if !truthy pj then .error "project_id é obrigatório"
    else if !truthy ii then .error "id_instancia é obrigatório"
    else if !truthy tb then .error "table é obrigatória"
    else if !isArray dt || keysLength dt = 0 then .error "data (array) não pode ser vazio"
    else .ok ⟨"/data/batch-insert", jObj
      [("project_id", pj), ("id_instancia", ii), ("table", tb), ("data", dt)]⟩

/-- `update(project_id, id_instancia, table, data, where = {}, where_raw = null)`
— service lines 904-920. -/
def svcUpdate (project_id id_instancia table_ data where_ where_raw : JVal) :
    Except String GoRequest :=
  let wh := pdef where_ (jObj [])
  let whr := pdef where_raw jNull
  if !truthy project_id || !truthy id_instancia || !truthy table_ || !truthy data then
    .error "project_id, id_instancia, table e data são obrigatórios"
  else .ok ⟨"/data/update", jObj
    [("project_id", project_id), ("id_instancia", id_instancia), ("table", table_),
     ("data", data), ("where", jor wh (jObj [])), ("where_raw", jor whr (jStr ""))]⟩

/-- `batchUpdate(project_id, id_instancia, table, updates)` — service lines
962-976. -/
def svcBatchUpdate (project_id id_instancia table_ updates : JVal) :
    Except String GoRequest :=
  if !truthy project_id || !truthy id_instancia || !truthy table_ || !isArray updates then
    .error "project_id, id_instancia, table e updates (array) são obrigatórios"
  else .ok ⟨"/data/batch-update", jObj
    [("project_id", project_id), ("id_instancia", id_instancia), ("table", table_),
     ("updates", jor updates (jArr []))]⟩

/-- `deleteRecords(project_id, id_instancia, table, where = {}, where_raw = null,
mode = "hard")` — service lines 1026-1039. -/
def svcDelete (project_id id_instancia table_ where_ where_raw mode : JVal) :
    Except String GoRequest :=
  let wh := pdef where_ (jObj [])
  let whr := pdef where_raw jNull
  let md := pdef mode (jStr "hard")
  if !truthy project_id || !truthy id_instancia || !truthy table_ then
    .error "project_id, id_instancia e table são obrigatórios"
  else .ok ⟨"/data/delete", jObj
    [("project_id", project_id), ("id_instancia", id_instancia), ("table", table_),
     ("where", wh), ("where_raw", whr), ("mode", md)]⟩

/-- `aggregate(project_id, id_instancia, table, operation, column = null,
where = {})` — service lines 1073-1086. -/
def svcAggregate (project_id id_instancia table_ operation column where_ : JVal) :
    Except String GoRequest :=
  let col := pdef column jNull
  let wh := pdef where_ (jObj [])
  if !truthy project_id || !truthy id_instancia || !truthy table_ || !truthy operation then
    .error "project_id, id_instancia, table e operation são obrigatórios"
  else .ok ⟨"/data/aggregate", jObj
    [("project_id", project_id), ("id_instancia", id_instancia), ("table", table_),
     ("operation", operation), ("column", col), ("where", wh)]⟩

/-- `advancedSelect(options)` — service lines 603-644. -/
def svcAdvancedSelect (options : Body) : Except String GoRequest :=
  let project_id := jget options "project_id"
  let id_instancia := jget options "id_instancia"
  let table_ := jget options "table"
  let alias_ := jget options "alias"
  let select_ := jget options "select"
  let joins := jget options "joins"
  let where_ := jget options "where"
  let where_raw := jget options "where_raw"
  let group_by := jget options "group_by"
  let having := jget options "having"
  let order_by := jget options "order_by"
  let limit := jget options "limit"
  let offset := jget options "offset"
  if !truthy project_id || !truthy id_instancia || !truthy table_ then
    .error "project_id, id_instancia e table são obrigatórios"
  else .ok ⟨"/data/select", jObj
    [("project_id", jsToNumber project_id), ("id_instancia", jsToNumber id_instancia),
     ("table", table_), ("alias", jor alias_ (jStr "")),
     ("select", if isArray select_ then select_ else jArr []),
     ("joins", if isArray joins then joins else jArr []),
     ("where", if truthy where_ &&
         (match where_ with | jObj _ => true | jArr _ => true | jNull => true | _ => false)
       then where_ else jObj []),
     ("where_raw", jor where_raw (jStr "")), ("group_by", jor group_by (jStr "")),
     ("having", jor having (jStr "")), ("order_by", jor order_by (jStr "")),
     ("limit", jor limit (jInt 0)), ("offset", jor offset (jInt 0))]⟩

/-! ## Controller layer (`src/src/controllers/api/goDataEngine.controller.js`)

The controller wired by `src/src/routes/api/index.js`.  Each handler checks
its required fields with JavaScript truthiness on the destructured body and
answers 400 without calling the service when the check fails; otherwise it
calls the service, answering 200 on success and 500 with the thrown message
in `error` when the service throws. -/

/-- Package a service outcome the way every controller's `try`/`catch`
does: `res.json({success:true, message: okMsg, ...})` on success,
`res.status(500).json({success:false, message: errMsg, error: err.message})`
on a thrown error. -/
def serviceStep (okMsg errMsg : String) : Except String GoRequest → CtrlResult
  | .ok g => ⟨200, true, okMsg, none, some g⟩
  | .error e => ⟨500, false, errMsg, some e, none⟩

/-- `insertRecord` — controller lines 14-26. -/
def insertRecord (body : Body) : CtrlResult :=
  let project_id := jget body "project_id"
  let id_instancia := jget body "id_instancia"
  let table_ := jget body "table"
  let data := jget body "data"
  if !truthy project_id || !truthy id_instancia || !truthy table_ || !truthy data then
    ⟨400, false, "project_id, id_instancia, table e data são obrigatórios", none, none⟩
  else
    serviceStep "Registro inserido com sucesso" "Erro ao inserir registro"
      (svcInsert project_id id_instancia table_ data)

/-- `batchInsert` — controller lines 29-41. -/
def batchInsertRecord (body : Body) : CtrlResult :=
  let project_id := jget body "project_id"
  let id_instancia := jget body "id_instancia"
  let table_ := jget body "table"
  let data := jget body "data"
  if !truthy project_id || !truthy id_instancia || !truthy table_ || !isArray data then
    ⟨400, false, "project_id, id_instancia, table e data (array) são obrigatórios", none, none⟩
  else
    serviceStep "Batch insert realizado com sucesso" "Erro ao inserir registros em lote"
      (svcBatchInsert project_id id_instancia table_ data)

/-- `advancedSelect` — controller lines 44-56. -/
def advancedSelectRecord (body : Body) : CtrlResult :=
  if !truthy (jget body "project_id") || !truthy (jget body "id_instancia")
      || !truthy (jget body "table") then
    ⟨400, false, "project_id, id_instancia e table são obrigatórios", none, none⟩
  else
    serviceStep "Consulta realizada com sucesso" "Erro ao executar consulta avançada"
      (svcAdvancedSelect body)

/-- `updateRecord` — controller lines 59-71. -/
def updateRecord (body : Body) : CtrlResult :=
  let project_id := jget body "project_id"
  let id_instancia := jget body "id_instancia"
  let table_ := jget body "table"
  let data := jget body "data"
  let where_ := jget body "where"
  let where_raw := jget body "where_raw"
  if !truthy project_id || !truthy id_instancia || !truthy table_ || !truthy data then
    ⟨400, false, "project_id, id_instancia, table e data são obrigatórios", none, none⟩
  else
    serviceStep "Registro atualizado com sucesso" "Erro ao atualizar registro"
      (svcUpdate project_id id_instancia table_ data (jor where_ (jObj []))
        (jor where_raw jNull))

/-- `batchUpdate` — controller lines 74-86. -/
def batchUpdateRecord (body : Body) : CtrlResult :=
  let project_id := jget body "project_id"
  let id_instancia := jget body "id_instancia"
  let table_ := jget body "table"
  let updates := jget body "updates"
  if !truthy project_id || !truthy id_instancia || !truthy table_ || !isArray updates then
    ⟨400, false, "project_id, id_instancia, table e updates (array) são obrigatórios", none, none⟩
  else
    serviceStep "Batch update realizado com sucesso" "Erro ao atualizar registros em lote"
      (svcBatchUpdate project_id id_instancia table_ updates)

/-- `deleteRecord` — controller lines 89-101. -/
def deleteRecord (body : Body) : CtrlResult :=
  let project_id := jget body "project_id"
  let id_instancia := jget body "id_instancia"
  let table_ := jget body "table"
  let where_ := jget body "where"
  let where_raw := jget body "where_raw"
  let mode := jget body "mode"
  if !truthy project_id || !truthy id_instancia || !truthy table_ then
    ⟨400, false, "project_id, id_instancia e table são obrigatórios", none, none⟩
  else
    serviceStep "Registro(s) deletado(s) com sucesso" "Erro ao deletar registro(s)"
      (svcDelete project_id id_instancia table_ (jor where_ (jObj []))
        (jor where_raw jNull) (jor mode (jStr "hard")))

/-- `aggregate` — controller lines 104-116. -/
def aggregateRecord (body : Body) : CtrlResult :=
  let project_id := jget body "project_id"
  let id_instancia := jget body "id_instancia"
  let table_ := jget body "table"
  let operation := jget body "operation"
  let column := jget body "column"
  let where_ := jget body "where"
  if !truthy project_id || !truthy id_instancia || !truthy table_ || !truthy operation then
    ⟨400, false, "project_id, id_instancia, table e operation são obrigatórios", none, none⟩
  else
    serviceStep "Agregação realizada com sucesso" "Erro ao executar agregação"
      (svcAggregate project_id id_instancia table_ operation (jor column jNull)
        (jor where_ (jObj [])))

/-! ## Routing (`src/src/routes/api/index.js`) -/

/-- The seven operation endpoints registered on the API router. -/
inductive Endpoint where
  | insert | batchInsert | get | update | batchUpdate | delete | aggregate
deriving DecidableEq, Repr

/-- Dispatch of a body to the controller handler of an endpoint, as wired in
the routes file. -/
def handle : Endpoint → Body → CtrlResult
  | .insert => insertRecord
  | .batchInsert => batchInsertRecord
  | .get => advancedSelectRecord
  | .update => updateRecord
  | .batchUpdate => batchUpdateRecord
  | .delete => deleteRecord
  | .aggregate => aggregateRecord

/-- The fields each endpoint's controller requires of the body (the fields
whose absence triggers the 400 branch). -/
def requiredFields : Endpoint → List String
  | .insert => ["project_id", "id_instancia", "table", "data"]
  | .batchInsert => ["project_id", "id_instancia", "table", "data"]
  | .get => ["project_id", "id_instancia", "table"]
  | .update => ["project_id", "id_instancia", "table", "data"]
  | .batchUpdate => ["project_id", "id_instancia", "table", "updates"]
  | .delete => ["project_id", "id_instancia", "table"]
  | .aggregate => ["project_id", "id_instancia", "table", "operation"]

/-! ## API-key middleware (`apiKey.middleware.js`, unnamed companion file) -/

/-- The allow-list read from `API_KEYS`: `API_KEYS.split(",")` when the
variable is set and non-empty, otherwise empty.  The split is computed on
the character list so that it evaluates inside the kernel. -/
def allowList (env : Option String) : List String :=
  match env with
  | none => []
  | some s =>
    if s ≠ "" then (s.toList.splitOn ',').map (fun cs => String.mk cs) else []

/-- The middleware's 401 response. -/
def reject401 : CtrlResult :=
  ⟨401, false, "Chave de API inválida ou ausente", none, none⟩

/-- `validateApiKey(req, res, next)`: reject with 401 when the `x-api-key`
header is falsy or not in the allow-list; otherwise fall through to the
handler (`none`). -/
def validateApiKey (env : Option String) (key : Option String) : Option CtrlResult :=
  let validKeys := allowList env
  let keyOk := match key with
    | none => false
    | some k => k ≠ "" && validKeys.contains k
  if !keyOk then some reject401 else none

/-- A routed endpoint: `router.post(path, validateApiKey, handler)`. -/
def route (env key : Option String) (ep : Endpoint) (body : Body) : CtrlResult :=
  match validateApiKey env key with
  | some r => r
  | none => handle ep body

/-! ## `validateFields` helper (unnamed companion controller file, lines
124-133) -/

/-- The required fields a body is missing according to `validateFields`:
`requiredFields.filter((f) => !(f in body) || body[f] == null)` — loose
`== null` matches both `null` and `undefined`. -/
def missingOf (body : Body) (required : List String) : List String :=
  required.filter fun f =>
    match List.lookup f body with
    | none => true
    | some jNull => true
    | some jUndef => true
    | some _ => false

/-- `validateFields(res, body, requiredFields, context)`: a 400 response
naming every missing field when any is missing, otherwise `null`. -/
def validateFields (body : Body) (required : List String) (context : String) :
    Option CtrlResult :=
  let missing := missingOf body required
  if missing.length ≠ 0 then
    some ⟨400, false,
      "Campos obrigatórios ausentes para " ++ context ++ ": " ++
        String.intercalate ", " missing, none, none⟩
  else none

/-! ## Forwarder failure mapping (`requestToGo`, service lines 37-51)

The axios call either resolves, rejects with a response attached (the
downstream answered with a non-2xx status), or rejects with no response
(timeout, connection refused, DNS failure).  The `catch` throws
`new Error(err.response?.data || err.message)`; an `Error` message is the
JavaScript string conversion of its argument. -/

/-- Outcome of the outbound axios call. -/
inductive AxiosOutcome where
  | success (data : JVal)
  | httpError (responseData : JVal) (message : String)
  | transportError (message : String)
deriving Repr

/-- `requestToGo`'s result: the downstream body on success, otherwise the
message of the thrown `Error` — `String(err.response?.data || err.message)`.
For a transport failure `err.response` is `undefined`, so the value fed to
`new Error` is `err.message`. -/
def requestToGo (o : AxiosOutcome) : Except String JVal :=
  match o with
  | .success d => .ok d
  | .httpError rd msg => .error (jsToString (jor rd (jStr msg)))
  | .transportError msg => .error (jsToString (jor jUndef (jStr msg)))

/-! ## Consumer response handling (`callGoEngine`, service file lines
221-260, `goData.service.js`) -/

/-- The normalization branches written in `callGoEngine` (lines 239-253):
`result.data.data` when it is an array, `result` when already an array, a
one-element array around a single object, `[]` otherwise.  In the source
these branches sit after an unconditional `return result.data.data` and are
unreachable. -/
def goNormalize (result : JVal) : JVal :=
  match rowGet (rowGet result "data") "data" with
  | jArr xs => jArr xs
  | _ =>
    if isArray result then result
    else if truthy result && (match result with | jObj _ => true | jArr _ => true | _ => false)
    then jArr [result]
    else jArr []

/-- `callGoEngine`'s handling of a downstream response body `result`: the
`try` body executes `return result.data.data` before the normalization
branches; if that member chain throws, the `catch` runs
`JSON.stringify(erroReal.error[1], ...)` where `erroReal` is the error
message string, so `erroReal.error` is `undefined` and indexing it throws a
TypeError out of the function. -/
def callGoEngine (result : JVal) : Except String JVal :=
  match (jmemE result "data").bind (fun d => jmemE d "data") with
  | .ok v => .ok v
  | .error _ => .error "TypeError: Cannot read properties of undefined"

/-! ## Concrete request bodies used by counterexamples and witnesses -/

/-- An insert body whose `data` is present but an empty object. -/
def insertEmptyDataBody : Body :=
  [("project_id", jInt 1), ("id_instancia", jInt 10), ("table", jStr "t"), ("data", jObj [])]

/-- A delete body with no `mode` field. -/
def deleteBodyNoMode : Body :=
  [("project_id", jInt 1), ("id_instancia", jInt 10), ("table", jStr "t")]

/-- A delete body with explicit `mode: "soft"`. -/
def deleteBodySoft : Body :=
  [("project_id", jInt 1), ("id_instancia", jInt 10), ("table", jStr "t"), ("mode", jStr "soft")]

/-- An aggregate body with `operation: "SUM"` and no `column`. -/
def aggBodySum : Body :=
  [("project_id", jInt 1), ("id_instancia", jInt 10), ("table", jStr "t"),
   ("operation", jStr "SUM")]

/-- An aggregate body whose operation is outside {COUNT, SUM, AVG, MIN, MAX, EXISTS}. -/
def aggBodyFoo : Body :=
  [("project_id", jInt 1), ("id_instancia", jInt 10), ("table", jStr "t"),
   ("operation", jStr "FOO")]

/-- A batch-insert row list: one row lacking `id_instancia`, one supplying 99. -/
def sampleRows : List JVal :=
  [jObj [("nome", jStr "A")], jObj [("nome", jStr "B"), ("id_instancia", jInt 99)]]

/-! ## Helper lemmas on the JavaScript-value model -/

lemma nullish_of_truthy {x : JVal} (h : truthy x = true) (y : JVal) : nullish x y = x := by
  cases x <;> simp_all [truthy, nullish]

lemma nullish_of_ne {x : JVal} (h1 : x ≠ jNull) (h2 : x ≠ jUndef) (y : JVal) :
    nullish x y = x := by
  cases x <;> simp_all [nullish]

lemma jget_absent {body : Body} {f : String} (h : List.lookup f body = none) :
    jget body f = jUndef := by
  simp [jget, h]

lemma lookup_map_keep (fs : List (String × JVal)) (k k' : String) (v : JVal) (h : k' ≠ k) :
    List.lookup k' (fs.map fun p => if p.1 = k then (k, v) else p) = List.lookup k' fs := by
  induction fs with
  | nil => rfl
  | cons p rest ih =>
    simp only [List.map_cons]
    by_cases hp : p.1 = k
    · rw [if_pos hp]
      have h1 : (k' == k) = false := beq_eq_false_iff_ne.mpr h
      have h2 : (k' == p.1) = false := by rw [hp]; exact h1
      simp [List.lookup, h1, h2, ih]
    · rw [if_neg hp]
      cases hkp : (k' == p.1) <;> simp [List.lookup, hkp, ih]

lemma lookup_append_single_ne (fs : List (String × JVal)) (k k' : String) (v : JVal)
    (h : k' ≠ k) : List.lookup k' (fs ++ [(k, v)]) = List.lookup k' fs := by
  induction fs with
  | nil => simp [List.lookup, beq_eq_false_iff_ne.mpr h]
  | cons p rest ih => cases hkp : (k' == p.1) <;> simp [List.lookup, hkp, ih]

lemma lookup_objSet_ne (fs : List (String × JVal)) (k k' : String) (v : JVal)
    (h : k' ≠ k) : List.lookup k' (objSet fs k v) = List.lookup k' fs := by
  unfold objSet
  by_cases hc : (fs.map Prod.fst).contains k = true
  · rw [if_pos hc]; exact lookup_map_keep fs k k' v h
  · rw [if_neg hc]; exact lookup_append_single_ne fs k k' v h

lemma lookup_map_self (fs : List (String × JVal)) (k : String) (v : JVal)
    (hc : (fs.map Prod.fst).contains k = true) :
    List.lookup k (fs.map fun p => if p.1 = k then (k, v) else p) = some v := by
  induction fs with
  | nil => simp at hc
  | cons p rest ih =>
    simp only [List.map_cons]
    by_cases hp : p.1 = k
    · rw [if_pos hp]
      simp [List.lookup]
    · rw [if_neg hp]
      have hc' : (rest.map Prod.fst).contains k = true := by
        simp only [List.map_cons, List.contains_cons, Bool.or_eq_true_iff] at hc
        rcases hc with h | h
        · exact absurd (beq_iff_eq.mp h).symm hp
        · exact h
      have hkp : (k == p.1) = false := beq_eq_false_iff_ne.mpr (fun he => hp he.symm)
      simp [List.lookup, hkp, ih hc']

lemma lookup_append_single_self (fs : List (String × JVal)) (k : String) (v : JVal) :
    (fs.map Prod.fst).contains k = false → List.lookup k (fs ++ [(k, v)]) = some v := by
  induction fs with
  | nil => intro _; simp [List.lookup]
  | cons p rest ih =>
    intro hn
    simp only [List.map_cons, List.contains_cons, Bool.or_eq_false_iff] at hn
    simp [List.lookup, hn.1, ih hn.2]

lemma lookup_objSet_self (fs : List (String × JVal)) (k : String) (v : JVal) :
    List.lookup k (objSet fs k v) = some v := by
  unfold objSet
  by_cases hc : (fs.map Prod.fst).contains k = true
  · rw [if_pos hc]; exact lookup_map_self fs k v hc
  · rw [if_neg hc]
    exact lookup_append_single_self fs k v (by simpa using hc)

lemma objSet_keys (fs : List (String × JVal)) (k : String) (v : JVal) :
    (objSet fs k v).map Prod.fst =
      if (fs.map Prod.fst).contains k then fs.map Prod.fst
      else fs.map Prod.fst ++ [k] := by
  unfold objSet
  by_cases hc : (fs.map Prod.fst).contains k = true
  · rw [if_pos hc, if_pos hc]
    clear hc
    induction fs with
    | nil => rfl
    | cons p rest ih =>
      simp only [List.map_cons, ih]
      by_cases hp : p.1 = k
      · rw [if_pos hp]; simp [hp]
      · rw [if_neg hp]
  · rw [if_neg hc, if_neg hc]
    simp

/-! ## Claim theorems -/

/-- C1: for every operation endpoint (insert, batch-insert, get, update,
batch-update, delete, aggregate), a request whose body lacks a required
field for that operation is answered with HTTP 400 and `success = false`,
and no downstream request is issued (`requestToGo` is never invoked). -/
theorem missing_required_field_yields_400 (ep : Endpoint) (body : Body) (f : String)
    (hf : f ∈ requiredFields ep) (hm : List.lookup f body = none) :
    (handle ep body).status = 400 ∧ (handle ep body).success = false ∧
      (handle ep body).forwarded = none := by
  have hg : jget body f = jUndef := jget_absent hm
  cases ep
  all_goals simp only [requiredFields, List.mem_cons, List.not_mem_nil, or_false] at hf
  case insert =>
    rcases hf with rfl | rfl | rfl | rfl <;>
      simp [handle, insertRecord, hg, truthy]
  case batchInsert =>
    rcases hf with rfl | rfl | rfl | rfl <;>
      simp [handle, batchInsertRecord, hg, truthy, isArray]
  case get =>
    rcases hf with rfl | rfl | rfl <;>
      simp [handle, advancedSelectRecord, hg, truthy]
  case update =>
    rcases hf with rfl | rfl | rfl | rfl <;>
      simp [handle, updateRecord, hg, truthy]
  case batchUpdate =>
    rcases hf with rfl | rfl | rfl | rfl <;>
      simp [handle, batchUpdateRecord, hg, truthy, isArray]
  case delete =>
    rcases hf with rfl | rfl | rfl <;>
      simp [handle, deleteRecord, hg, truthy]
  case aggregate =>
    rcases hf with rfl | rfl | rfl | rfl <;>
      simp [handle, aggregateRecord, hg, truthy]

/-- C1 witness: the insert endpoint with a body lacking `data` answers 400,
`success = false`, and issues no downstream request. -/
theorem missing_required_field_yields_400_witness :
    ("data" ∈ requiredFields Endpoint.insert) ∧
      (handle Endpoint.insert [("project_id", jInt 1)]).status = 400 ∧
      (handle Endpoint.insert [("project_id", jInt 1)]).success = false ∧
      (handle Endpoint.insert [("project_id", jInt 1)]).forwarded = none :=
  ⟨by decide, missing_required_field_yields_400 Endpoint.insert [("project_id", jInt 1)]
    "data" (by decide) rfl⟩

/-- C4: a request whose `x-api-key` header is absent or not in the
comma-separated `API_KEYS` allow-list is answered 401 with `success = false`
on every operation endpoint, and an unset or empty allow-list rejects every
request (fail closed). -/
theorem route_invalid_key_401 (env key : Option String) (ep : Endpoint) (body : Body) :
    ((key = none ∨ ∃ k, key = some k ∧ k ∉ allowList env) →
      route env key ep body = reject401) ∧
    ((env = none ∨ env = some "") → route env key ep body = reject401) := by
  constructor
  · rintro (rfl | ⟨k, rfl, hk⟩)
    · simp [route, validateApiKey]
    · simp [route, validateApiKey, hk]
  · intro henv
    have hempty : allowList env = [] := by
      rcases henv with rfl | rfl <;> simp [allowList]
    cases key with
    | none => simp [route, validateApiKey]
    | some k => simp [route, validateApiKey, hempty]

/-- C4 witness: a key outside the allow-list and a key against an unset
allow-list are both answered with the 401 rejection. -/
theorem route_invalid_key_401_witness :
    route (some "k1,k2") (some "k3") Endpoint.insert [] = reject401 ∧
      route none (some "k1") Endpoint.delete [] = reject401 :=
  ⟨(route_invalid_key_401 (some "k1,k2") (some "k3") Endpoint.insert []).1
      (Or.inr ⟨"k3", rfl, by decide⟩),
   (route_invalid_key_401 none (some "k1") Endpoint.delete []).2 (Or.inl rfl)⟩

/-- A required field is absent or null in the sense of `validateFields`
(`!(f in body) || body[f] == null`; loose equality matches `undefined`). -/
def absentOrNull (body : Body) (f : String) : Prop :=
  List.lookup f body = none ∨ List.lookup f body = some jNull ∨
    List.lookup f body = some jUndef

/-- C7: when validation fails for missing required fields, the rejection
names every absent-or-null required field at once — the `missing` list
contains each such field, not only the first — and the rejection is a 400
response built from the body alone, before any transformation or downstream
call (`forwarded = none`). -/
theorem validateFields_names_all_missing (body : Body) (required : List String)
    (context : String) :
    (∀ f, f ∈ required → absentOrNull body f → f ∈ missingOf body required) ∧
    (missingOf body required ≠ [] →
      validateFields body required context =
        some ⟨400, false,
          "Campos obrigatórios ausentes para " ++ context ++ ": " ++
            String.intercalate ", " (missingOf body required), none, none⟩) := by
  constructor
  · intro f hf ha
    have hp : (match List.lookup f body with
        | none => true | some jNull => true | some jUndef => true | some _ => false) = true := by
      rcases ha with h | h | h <;> rw [h]
    simpa [missingOf, List.mem_filter, hf] using hp
  · intro hne
    have hlen : ¬ (missingOf body required).length = 0 := by
      simpa [List.length_eq_zero] using hne
    simp [validateFields, hlen]

/-- C7 witness: a body supplying only `table` (with `data: null`) is
rejected naming both `project_id` and `id_instancia` and `data`. -/
theorem validateFields_names_all_missing_witness :
    ("project_id" ∈ missingOf [("table", jStr "t"), ("data", jNull)]
        ["project_id", "id_instancia", "table", "data"]) ∧
    validateFields [("table", jStr "t"), ("data", jNull)]
        ["project_id", "id_instancia", "table", "data"] "insert" =
      some ⟨400, false,
        "Campos obrigatórios ausentes para " ++ "insert" ++ ": " ++
          String.intercalate ", "
            (missingOf [("table", jStr "t"), ("data", jNull)]
              ["project_id", "id_instancia", "table", "data"]), none, none⟩ :=
  ⟨(validateFields_names_all_missing [("table", jStr "t"), ("data", jNull)]
      ["project_id", "id_instancia", "table", "data"] "insert").1 "project_id"
      (by decide) (Or.inl rfl),
   (validateFields_names_all_missing [("table", jStr "t"), ("data", jNull)]
      ["project_id", "id_instancia", "table", "data"] "insert").2 (by decide)⟩

lemma mergedRow_id_of_absent (v : JVal) (fs : List (String × JVal))
    (h : List.lookup "id_instancia" fs = none) :
    rowGet (mergedRow v (jObj fs)) "id_instancia" = v := by
  simp [mergedRow, rowGet, spreadFields, jget, h, nullish, lookup_objSet_self]

lemma mergedRow_id_of_null (v : JVal) (fs : List (String × JVal))
    (h : List.lookup "id_instancia" fs = some jNull) :
    rowGet (mergedRow v (jObj fs)) "id_instancia" = v := by
  simp [mergedRow, rowGet, spreadFields, jget, h, nullish, lookup_objSet_self]

lemma mergedRow_id_of_supplied (v : JVal) (fs : List (String × JVal)) (x : JVal)
    (h : List.lookup "id_instancia" fs = some x) (h1 : x ≠ jNull) (h2 : x ≠ jUndef) :
    rowGet (mergedRow v (jObj fs)) "id_instancia" = x := by
  simp [mergedRow, rowGet, spreadFields, jget, h, nullish_of_ne h1 h2,
    lookup_objSet_self]

lemma mergedRow_other_keys (v : JVal) (fs : List (String × JVal)) (k : String)
    (hk : k ≠ "id_instancia") :
    rowGet (mergedRow v (jObj fs)) k = jget fs k := by
  simp [mergedRow, rowGet, spreadFields, jget, lookup_objSet_ne _ _ _ _ hk]

lemma mergedRowE_of_obj (v : JVal) (fs : List (String × JVal)) :
    mergedRowE v (jObj fs) = .ok (mergedRow v (jObj fs)) := rfl

lemma mapM_mergedRowE_objects (v : JVal) (rows : List JVal)
    (h : ∀ r ∈ rows, isObj r = true) :
    rows.mapM (mergedRowE v) = .ok (rows.map (mergedRow v)) := by
  induction rows with
  | nil => rfl
  | cons r rest ih =>
    have hr : isObj r = true := h r (List.mem_cons_self r rest)
    obtain ⟨fs, rfl⟩ : ∃ fs, r = jObj fs := by
      cases r <;> simp_all [isObj]
    rw [List.mapM_cons, mergedRowE_of_obj,
      ih (fun x hx => h x (List.mem_cons_of_mem _ hx))]
    rfl

lemma svcBatchInsert_ok (pj v tb : JVal) (rows : List JVal)
    (hpj : truthy pj = true) (hv : truthy v = true) (htb : truthy tb = true)
    (hne : rows ≠ []) (hobj : ∀ r ∈ rows, isObj r = true) :
    svcBatchInsert pj v tb (jArr rows) = .ok ⟨"/data/batch-insert",
      jObj [("project_id", pj), ("id_instancia", v), ("table", tb),
            ("data", jArr (rows.map (mergedRow v)))]⟩ := by
  simp only [svcBatchInsert]
  rw [mapM_mergedRowE_objects v rows hobj]
  simp only [Except.map]
  rw [nullish_of_truthy hpj, nullish_of_truthy hv, nullish_of_truthy htb]
  simp [hpj, hv, htb, isArray, keysLength, hne]

/-- C2: a batch-insert whose rows are objects, with request-level instance
identifier `v`, forwards `rows.map (mergedRow v)`: a row whose
`id_instancia` is absent gets `id_instancia = v`, a row supplying its own
(non-null) `id_instancia` keeps that value, and every other key keeps its
value.  (A `null`/`undefined` row makes the source merge throw, so nothing
would be forwarded; `mergedRowE` models that path.) -/
theorem batchInsert_instance_fill (pj v tb : JVal) (rows : List JVal)
    (hpj : truthy pj = true) (hv : truthy v = true) (htb : truthy tb = true)
    (hne : rows ≠ []) (hobj : ∀ r ∈ rows, isObj r = true) :
    svcBatchInsert pj v tb (jArr rows) = .ok ⟨"/data/batch-insert",
      jObj [("project_id", pj), ("id_instancia", v), ("table", tb),
            ("data", jArr (rows.map (mergedRow v)))]⟩ ∧
    ∀ fs : List (String × JVal),
      (List.lookup "id_instancia" fs = none →
        rowGet (mergedRow v (jObj fs)) "id_instancia" = v) ∧
      (∀ x, List.lookup "id_instancia" fs = some x → x ≠ jNull → x ≠ jUndef →
        rowGet (mergedRow v (jObj fs)) "id_instancia" = x) ∧
      (∀ k, k ≠ "id_instancia" → rowGet (mergedRow v (jObj fs)) k = jget fs k) := by
  refine ⟨svcBatchInsert_ok pj v tb rows hpj hv htb hne hobj, fun fs => ⟨?_, ?_, ?_⟩⟩
  · exact mergedRow_id_of_absent v fs
  · exact fun x hx h1 h2 => mergedRow_id_of_supplied v fs x hx h1 h2
  · exact fun k hk => mergedRow_other_keys v fs k hk

/-- C2 witness: the spec's example — request `id_instancia = 10`, row
`{nome:"A"}` gets `id_instancia: 10`, row `{nome:"B", id_instancia: 99}`
keeps 99. -/
theorem batchInsert_instance_fill_witness :
    svcBatchInsert (jInt 1) (jInt 10) (jStr "t") (jArr sampleRows) =
      .ok ⟨"/data/batch-insert",
        jObj [("project_id", jInt 1), ("id_instancia", jInt 10), ("table", jStr "t"),
              ("data", jArr [jObj [("nome", jStr "A"), ("id_instancia", jInt 10)],
                             jObj [("nome", jStr "B"), ("id_instancia", jInt 99)]])]⟩ ∧
    rowGet (mergedRow (jInt 10) (jObj [("nome", jStr "A")])) "id_instancia" = jInt 10 ∧
    rowGet (mergedRow (jInt 10) (jObj [("nome", jStr "B"), ("id_instancia", jInt 99)]))
      "id_instancia" = jInt 99 := by
  have h := batchInsert_instance_fill (jInt 1) (jInt 10) (jStr "t") sampleRows
    rfl rfl rfl (List.cons_ne_nil _ _) (by decide)
  exact ⟨h.1, (h.2 [("nome", jStr "A")]).1 rfl,
    (h.2 [("nome", jStr "B"), ("id_instancia", jInt 99)]).2.1 (jInt 99) rfl
      (by simp) (by simp)⟩

/-- C10: for a batch-insert whose rows are objects, each forwarded row
preserves every caller-supplied key other than `id_instancia` (same keys in
the same order, same values — no field dropped, renamed or rewritten), and
a row whose `id_instancia` is present but explicitly `null` is also
overwritten with the request-level value, because the merge uses nullish
coalescing. -/
theorem batchInsert_row_frame (pj v tb : JVal) (rows : List JVal)
    (hpj : truthy pj = true) (hv : truthy v = true) (htb : truthy tb = true)
    (hne : rows ≠ []) (hobj : ∀ r ∈ rows, isObj r = true) :
    (∃ g, svcBatchInsert pj v tb (jArr rows) = .ok g ∧
      g.field "data" = jArr (rows.map (mergedRow v))) ∧
    ∀ fs : List (String × JVal),
      (∀ k, k ≠ "id_instancia" → rowGet (mergedRow v (jObj fs)) k = jget fs k) ∧
      ((spreadFields (mergedRow v (jObj fs))).map Prod.fst =
        if (fs.map Prod.fst).contains "id_instancia" then fs.map Prod.fst
        else fs.map Prod.fst ++ ["id_instancia"]) ∧
      (List.lookup "id_instancia" fs = some jNull →
        rowGet (mergedRow v (jObj fs)) "id_instancia" = v) := by
  refine ⟨⟨_, svcBatchInsert_ok pj v tb rows hpj hv htb hne hobj, rfl⟩,
    fun fs => ⟨fun k hk => mergedRow_other_keys v fs k hk, ?_, mergedRow_id_of_null v fs⟩⟩
  simp [mergedRow, spreadFields, objSet_keys]

/-- C10 witness: a row `{nome:"C", id_instancia: null}` is forwarded with
`id_instancia = 10` while `nome` is untouched. -/
theorem batchInsert_row_frame_witness :
    (∃ g, svcBatchInsert (jInt 1) (jInt 10) (jStr "t")
        (jArr [jObj [("nome", jStr "C"), ("id_instancia", jNull)]]) = .ok g ∧
      g.field "data" =
        jArr [jObj [("nome", jStr "C"), ("id_instancia", jInt 10)]]) ∧
    rowGet (mergedRow (jInt 10) (jObj [("nome", jStr "C"), ("id_instancia", jNull)]))
      "id_instancia" = jInt 10 ∧
    rowGet (mergedRow (jInt 10) (jObj [("nome", jStr "C"), ("id_instancia", jNull)]))
      "nome" = jStr "C" := by
  have h := batchInsert_row_frame (jInt 1) (jInt 10) (jStr "t")
    [jObj [("nome", jStr "C"), ("id_instancia", jNull)]] rfl rfl rfl
    (List.cons_ne_nil _ _) (by decide)
  obtain ⟨⟨g, hg, hdata⟩, hrows⟩ := h
  refine ⟨⟨g, hg, ?_⟩, (hrows [("nome", jStr "C"), ("id_instancia", jNull)]).2.2 rfl,
    (hrows [("nome", jStr "C"), ("id_instancia", jNull)]).1 "nome" (by simp)⟩
  rw [hdata]
  rfl

/-- C3: a delete request that supplies no `mode` field is forwarded to the
downstream `/data/delete` endpoint with `mode = "hard"`; an explicit
`mode: "soft"` is forwarded unchanged. -/
theorem delete_mode_default_hard (body : Body)
    (h1 : truthy (jget body "project_id") = true)
    (h2 : truthy (jget body "id_instancia") = true)
    (h3 : truthy (jget body "table") = true) :
    (List.lookup "mode" body = none →
      ∃ g, (deleteRecord body).forwarded = some g ∧ g.endpoint = "/data/delete" ∧
        g.field "mode" = jStr "hard") ∧
    (jget body "mode" = jStr "soft" →
      ∃ g, (deleteRecord body).forwarded = some g ∧ g.endpoint = "/data/delete" ∧
        g.field "mode" = jStr "soft") := by
  constructor
  · intro hm
    have hmode : jget body "mode" = jUndef := jget_absent hm
    have hfwd : (deleteRecord body).forwarded = some ⟨"/data/delete", jObj
        [("project_id", jget body "project_id"),
         ("id_instancia", jget body "id_instancia"),
         ("table", jget body "table"),
         ("where", pdef (jor (jget body "where") (jObj [])) (jObj [])),
         ("where_raw", pdef (jor (jget body "where_raw") jNull) jNull),
         ("mode", jStr "hard")]⟩ := by
      simp [deleteRecord, h1, h2, h3, svcDelete, serviceStep, hmode, jor, pdef,
        show truthy jUndef = false from rfl]
    exact ⟨_, hfwd, rfl, rfl⟩
  · intro hmode
    have hfwd : (deleteRecord body).forwarded = some ⟨"/data/delete", jObj
        [("project_id", jget body "project_id"),
         ("id_instancia", jget body "id_instancia"),
         ("table", jget body "table"),
         ("where", pdef (jor (jget body "where") (jObj [])) (jObj [])),
         ("where_raw", pdef (jor (jget body "where_raw") jNull) jNull),
         ("mode", jStr "soft")]⟩ := by
      simp [deleteRecord, h1, h2, h3, svcDelete, serviceStep, hmode, jor, pdef,
        show truthy (jStr "soft") = true from rfl]
    exact ⟨_, hfwd, rfl, rfl⟩

/-- C3 witness: a delete body with no `mode` forwards `mode = "hard"`, and
one with `mode: "soft"` forwards `mode = "soft"`. -/
theorem delete_mode_default_hard_witness :
    (∃ g, (deleteRecord deleteBodyNoMode).forwarded = some g ∧
      g.endpoint = "/data/delete" ∧ g.field "mode" = jStr "hard") ∧
    (∃ g, (deleteRecord deleteBodySoft).forwarded = some g ∧
      g.endpoint = "/data/delete" ∧ g.field "mode" = jStr "soft") :=
  ⟨(delete_mode_default_hard deleteBodyNoMode rfl rfl rfl).1 rfl,
   (delete_mode_default_hard deleteBodySoft rfl rfl rfl).2 rfl⟩

/-- C5 counterexample: the connectivity-failure error detail is the
transport library's message verbatim — two different transport failures
produce two different details, and a refused connection exposes the
internal host and port — refuting the claim of a fixed connectivity
message; moreover a downstream application error whose response body is a
JSON object surfaces as `"[object Object]"`, not the remote message. -/
theorem requestToGo_counterexample :
    requestToGo (.transportError "connect ECONNREFUSED 127.0.0.1:8080") =
      .error "connect ECONNREFUSED 127.0.0.1:8080" ∧
    requestToGo (.transportError "timeout of 30000ms exceeded") =
      .error "timeout of 30000ms exceeded" ∧
    ("connect ECONNREFUSED 127.0.0.1:8080" : String) ≠ "timeout of 30000ms exceeded" ∧
    requestToGo (.httpError
        (jObj [("success", jBool false), ("error", jStr "constraint violation")])
        "Request failed with status code 500") =
      .error "[object Object]" := by
  refine ⟨?_, ?_, by decide, ?_⟩ <;>
    simp [requestToGo, jor, truthy, jsToString]

/-- C5 amended: the thrown error detail does distinguish the two failure
classes, but as `String(err.response?.data || err.message)`: a downstream
application error with a truthy response body surfaces the string
conversion of that body (the body itself when it is a string,
`"[object Object]"` when it is a JSON object), a falsy body falls back to
the axios message, and a connectivity failure surfaces the transport
library's error message verbatim — not a fixed message, and it may
include internal network details. -/
theorem requestToGo_error_classes (rd : JVal) (rmsg tmsg : String) :
    (truthy rd = true → requestToGo (.httpError rd rmsg) = .error (jsToString rd)) ∧
    (truthy rd = false → requestToGo (.httpError rd rmsg) = .error rmsg) ∧
    requestToGo (.transportError tmsg) = .error tmsg := by
  refine ⟨fun h => ?_, fun h => ?_, ?_⟩
  · simp [requestToGo, jor, h]
  · simp [requestToGo, jor, h, jsToString]
  · simp [requestToGo, jor, truthy, jsToString]

/-- C5 witness: a string-bodied application error surfaces the remote
string; a transport failure surfaces the axios message. -/
theorem requestToGo_error_classes_witness :
    requestToGo (.httpError (jStr "duplicate key") "Request failed with status code 500") =
      .error "duplicate key" ∧
    requestToGo (.transportError "timeout of 30000ms exceeded") =
      .error "timeout of 30000ms exceeded" :=
  ⟨by
    have h := (requestToGo_error_classes (jStr "duplicate key")
      "Request failed with status code 500" "timeout of 30000ms exceeded").1 rfl
    simpa [jsToString] using h,
   (requestToGo_error_classes (jStr "duplicate key")
      "Request failed with status code 500" "timeout of 30000ms exceeded").2.2⟩

/-- C6 counterexample: an aggregate request with `operation:"SUM"` and no
`column` is not rejected — it is forwarded to `/data/aggregate` with
`column = null` — and an operation outside {COUNT, SUM, AVG, MIN, MAX,
EXISTS} is forwarded as well: no operator-set or column validation exists
in the gateway. -/
theorem aggregate_counterexample :
    aggregateRecord aggBodySum = ⟨200, true, "Agregação realizada com sucesso", none,
      some ⟨"/data/aggregate", jObj
        [("project_id", jInt 1), ("id_instancia", jInt 10), ("table", jStr "t"),
         ("operation", jStr "SUM"), ("column", jNull), ("where", jObj [])]⟩⟩ ∧
    aggregateRecord aggBodyFoo = ⟨200, true, "Agregação realizada com sucesso", none,
      some ⟨"/data/aggregate", jObj
        [("project_id", jInt 1), ("id_instancia", jInt 10), ("table", jStr "t"),
         ("operation", jStr "FOO"), ("column", jNull), ("where", jObj [])]⟩⟩ :=
  ⟨rfl, rfl⟩

/-- C6 amended: the aggregate endpoint validates only presence (truthiness)
of `operation` — any truthy operation value, in the enumerated set or not,
is accepted and forwarded unchanged, and a missing `column` is never
rejected but forwarded as `null`, for every operation including
SUM/AVG/MIN/MAX. -/
theorem aggregate_no_operator_validation (body : Body)
    (h1 : truthy (jget body "project_id") = true)
    (h2 : truthy (jget body "id_instancia") = true)
    (h3 : truthy (jget body "table") = true)
    (h4 : truthy (jget body "operation") = true) :
    (aggregateRecord body).status = 200 ∧
    ∃ g, (aggregateRecord body).forwarded = some g ∧ g.endpoint = "/data/aggregate" ∧
      g.field "operation" = jget body "operation" ∧
      (List.lookup "column" body = none → g.field "column" = jNull) := by
  have hfwd : aggregateRecord body = ⟨200, true, "Agregação realizada com sucesso", none,
      some ⟨"/data/aggregate", jObj
        [("project_id", jget body "project_id"),
         ("id_instancia", jget body "id_instancia"),
         ("table", jget body "table"),
         ("operation", jget body "operation"),
         ("column", pdef (jor (jget body "column") jNull) jNull),
         ("where", pdef (jor (jget body "where") (jObj [])) (jObj []))]⟩⟩ := by
    simp [aggregateRecord, h1, h2, h3, h4, svcAggregate, serviceStep]
  refine ⟨by rw [hfwd], ⟨"/data/aggregate", jObj
      [("project_id", jget body "project_id"),
       ("id_instancia", jget body "id_instancia"),
       ("table", jget body "table"),
       ("operation", jget body "operation"),
       ("column", pdef (jor (jget body "column") jNull) jNull),
       ("where", pdef (jor (jget body "where") (jObj [])) (jObj []))]⟩,
    by rw [hfwd], rfl, rfl, ?_⟩
  intro hcol
  have hu : jget body "column" = jUndef := jget_absent hcol
  have hX : pdef (jor (jget body "column") jNull) jNull = jNull := by
    simp [hu, jor, pdef, show truthy jUndef = false from rfl]
  exact hX

/-- C6 amended witness: the SUM-without-column body is accepted with status
200 and the forwarded payload carries the operation and `column = null`. -/
theorem aggregate_no_operator_validation_witness :
    (aggregateRecord aggBodySum).status = 200 ∧
    ∃ g, (aggregateRecord aggBodySum).forwarded = some g ∧
      g.endpoint = "/data/aggregate" ∧
      g.field "operation" = jget aggBodySum "operation" ∧
      (List.lookup "column" aggBodySum = none → g.field "column" = jNull) :=
  aggregate_no_operator_validation aggBodySum rfl rfl rfl rfl

/-- C8 counterexample: a `POST /insert` body whose `data` is present but an
empty object is answered with HTTP 500 (the service throws and the
controller's catch responds 500), not with the HTTP 400 the claim
states — though indeed no downstream call is made. -/
theorem insert_empty_data_counterexample :
    insertRecord insertEmptyDataBody =
      ⟨500, false, "Erro ao inserir registro", some "data não pode ser vazio", none⟩ ∧
    (insertRecord insertEmptyDataBody).status ≠ 400 :=
  ⟨rfl, by decide⟩

/-- C8 amended: an insert whose `data` is present but an empty object
passes the controller's truthiness check (an empty object is truthy),
is rejected inside the service (`data não pode ser vazio`), and surfaces
as HTTP 500 with `success = false` and the field named in `error`; no
downstream call is attempted (`forwarded = none`). -/
theorem insert_empty_data_500 (body : Body)
    (h1 : truthy (jget body "project_id") = true)
    (h2 : truthy (jget body "id_instancia") = true)
    (h3 : truthy (jget body "table") = true)
    (hd : jget body "data" = jObj []) :
    insertRecord body =
      ⟨500, false, "Erro ao inserir registro", some "data não pode ser vazio", none⟩ := by
  simp [insertRecord, h1, h2, h3, hd, svcInsert, serviceStep, keysLength,
    nullish_of_truthy, show truthy (jObj []) = true from rfl,
    show nullish (jObj []) (jObj []) = jObj [] from rfl]

/-- C8 amended witness: the concrete empty-`data` insert body yields the
500 rejection with no downstream call. -/
theorem insert_empty_data_500_witness :
    insertRecord insertEmptyDataBody =
      ⟨500, false, "Erro ao inserir registro", some "data não pode ser vazio", none⟩ :=
  insert_empty_data_500 insertEmptyDataBody rfl rfl rfl rfl

/-- C9: `callGoEngine` never performs the shape normalization its own
comments document: the unconditional `return result.data.data` runs first,
so a single-object response (or a scalar) makes the member chain throw a
TypeError (and the `catch` handler itself throws), while the written —
unreachable — normalization branches would have wrapped the object into a
one-element array; only a `{data:{data:[...]}}` response survives. -/
theorem callGoEngine_dead_normalization :
    callGoEngine (jObj [("x", jInt 1)]) =
      .error "TypeError: Cannot read properties of undefined" ∧
    goNormalize (jObj [("x", jInt 1)]) = jArr [jObj [("x", jInt 1)]] ∧
    callGoEngine (jInt 5) = .error "TypeError: Cannot read properties of undefined" ∧
    goNormalize (jInt 5) = jArr [] ∧
    callGoEngine (jObj [("data", jObj [("data", jArr [jInt 7])])]) = .ok (jArr [jInt 7]) :=
  ⟨rfl, rfl, rfl, rfl, rfl⟩
